import Mathlib

/-!
Shallow embedding of the tdbtk on-disk format codec (schema decoding and
filter-chain execution), translated from the Rust sources:
`src/datatype/mod.rs`, `src/array/mod.rs`, `src/filters/mod.rs`,
`src/filters/empty.rs`, `src/filters/gzip.rs`, `src/filters/compression.rs`,
`src/storage/filter.rs`, `src/storage/mod.rs`, `src/storage/schema.rs`.

Bytes are modelled as `Nat` (valid byte strings have entries below 256).
Fallible Rust code returning `Result` is modelled with `Except DErr`;
a Rust panic (e.g. `unwrap`, slice-length mismatch in `copy_from_slice`,
out-of-range slice indexing, explicit `panic!` calls) is modelled by the
distinguished `DErr.panicked` constructor, while recoverable errors
(`binrw` decode errors, `anyhow` errors) use `DErr.failed`.
-/

namespace Tdbtk

/-- Outcome of a fallible operation: a Rust panic or a recoverable error. -/
inductive DErr where
  | panicked (msg : String)
  | failed (msg : String)
deriving Repr, DecidableEq

/-- Result type for decoding and filter execution. -/
abbrev DRes (α : Type) := Except DErr α

/-- Read one byte from the cursor (binrw `u8`). -/
def readU8 : List Nat → DRes (Nat × List Nat)
  | [] => throw (.failed "unexpected end of input")
  | b :: rest => pure (b, rest)

/-- Read a little-endian `u16`. -/
def readU16 (bs : List Nat) : DRes (Nat × List Nat) := do
  let (b0, bs) ← readU8 bs
  let (b1, bs) ← readU8 bs
  pure (b0 + 256 * b1, bs)

/-- Read a little-endian `u32`. -/
def readU32 (bs : List Nat) : DRes (Nat × List Nat) := do
  let (b0, bs) ← readU8 bs
  let (b1, bs) ← readU8 bs
  let (b2, bs) ← readU8 bs
  let (b3, bs) ← readU8 bs
  pure (b0 + 256 * b1 + 65536 * b2 + 16777216 * b3, bs)

/-- Read a little-endian `u64`. -/
def readU64 (bs : List Nat) : DRes (Nat × List Nat) := do
  let (lo, bs) ← readU32 bs
  let (hi, bs) ← readU32 bs
  pure (lo + 4294967296 * hi, bs)

/-- Read a little-endian `i32` (two's complement). -/
def readI32 (bs : List Nat) : DRes (Int × List Nat) := do
  let (x, bs) ← readU32 bs
  if x < 2147483648 then pure ((x : Int), bs)
  else pure ((x : Int) - 4294967296, bs)

/-- Read `n` raw bytes (binrw `count(n)` on a byte vector). -/
def readBytes (n : Nat) (bs : List Nat) : DRes (List Nat × List Nat) :=
  if n ≤ bs.length then pure (bs.take n, bs.drop n)
  else throw (.failed "unexpected end of input")

/-- Little-endian encoding of a `u32` value (value taken mod 2^32). -/
def encodeU32 (v : Nat) : List Nat :=
  [v % 256, v / 256 % 256, v / 65536 % 256, v / 16777216 % 256]

/-- Little-endian encoding of a `u64` value (value taken mod 2^64). -/
def encodeU64 (v : Nat) : List Nat :=
  encodeU32 (v % 4294967296) ++ encodeU32 (v / 4294967296 % 4294967296)

/-- `src/datatype/mod.rs`: the `DataType` enumeration. -/
inductive DataType where
  | Int32 | Int64 | Float32 | Float64 | Char
  | Int8 | Uint8 | Int16 | Uint16 | Uint32 | Uint64
  | StringAscii | StringUtf8 | StringUtf16 | StringUtf32
  | StringUcs2 | StringUcs4 | Any
  | DatetimeYear | DatetimeMonth | DatetimeWeek | DatetimeDay
  | DatetimeHour | DatetimeMin | DatetimeSec | DatetimeMSec
  | DatetimeUSec | DatetimeNSec | DatetimePSec | DatetimeFSec | DatetimeASec
  | TimeHour | TimeMin | TimeSec | TimeMSec | TimeUSec
  | TimeNSec | TimePSec | TimeFSec | TimeASec
  | Blob | Bool
  | Invalid
deriving Repr, DecidableEq

/-- `impl From<u8> for DataType`: total byte-to-enum conversion. -/
def DataType.fromByte (orig : Nat) : DataType :=
  match orig with
  | 0 => .Int32
  | 1 => .Int64
  | 2 => .Float32
  | 3 => .Float64
  | 4 => .Char
  | 5 => .Int8
  | 6 => .Uint8
  | 7 => .Int16
  | 8 => .Uint16
  | 9 => .Uint32
  | 10 => .Uint64
  | 11 => .StringAscii
  | 12 => .StringUtf8
  | 13 => .StringUtf16
  | 14 => .StringUtf32
  | 15 => .StringUcs2
  | 16 => .StringUcs4
  | 17 => .Any
  | 18 => .DatetimeYear
  | 19 => .DatetimeMonth
  | 20 => .DatetimeWeek
  | 21 => .DatetimeDay
  | 22 => .DatetimeHour
  | 23 => .DatetimeMin
  | 24 => .DatetimeSec
  | 25 => .DatetimeMSec
  | 26 => .DatetimeUSec
  | 27 => .DatetimeNSec
  | 28 => .DatetimePSec
  | 29 => .DatetimeFSec
  | 30 => .DatetimeASec
  | 31 => .TimeHour
  | 32 => .TimeMin
  | 33 => .TimeSec
  | 34 => .TimeMSec
  | 35 => .TimeUSec
  | 36 => .TimeNSec
  | 37 => .TimePSec
  | 38 => .TimeFSec
  | 39 => .TimeASec
  | 40 => .Blob
  | 41 => .Bool
  | _ => .Invalid

/-- `DataType::size`: fixed byte width of each data type
(Rust `size_of::<char>()` is 4). -/
def DataType.size : DataType → Nat
  | .Int32 => 4
  | .Int64 => 8
  | .Float32 => 4
  | .Float64 => 8
  | .Char => 4
  | .Int8 => 1
  | .Uint8 => 1
  | .Int16 => 2
  | .Uint16 => 2
  | .Uint32 => 4
  | .Uint64 => 8
  | .StringAscii => 4
  | .StringUtf8 => 1
  | .StringUtf16 => 2
  | .StringUtf32 => 4
  | .StringUcs2 => 2
  | .StringUcs4 => 4
  | .Any => 1
  | .DatetimeYear => 8
  | .DatetimeMonth => 8
  | .DatetimeWeek => 8
  | .DatetimeDay => 8
  | .DatetimeHour => 8
  | .DatetimeMin => 8
  | .DatetimeSec => 8
  | .DatetimeMSec => 8
  | .DatetimeUSec => 8
  | .DatetimeNSec => 8
  | .DatetimePSec => 8
  | .DatetimeFSec => 8
  | .DatetimeASec => 8
  | .TimeHour => 8
  | .TimeMin => 8
  | .TimeSec => 8
  | .TimeMSec => 8
  | .TimeUSec => 8
  | .TimeNSec => 8
  | .TimePSec => 8
  | .TimeFSec => 8
  | .TimeASec => 8
  | .Blob => 1
  | .Bool => 1
  | .Invalid => 0

/-- `DataType::is_string_type`. -/
def DataType.is_string_type (d : DataType) :=
  match d with
  | .StringAscii | .StringUtf8 | .StringUtf16
  | .StringUtf32 | .StringUcs2 | .StringUcs4 => true
  | _ => false

/-- `src/array/mod.rs`: the `ArrayType` enumeration. -/
inductive ArrayType where
  | Dense | Sparse | Invalid
deriving Repr, DecidableEq

/-- `impl From<u8> for ArrayType`. -/
def ArrayType.fromByte (orig : Nat) : ArrayType :=
  match orig with
  | 0 => .Dense
  | 1 => .Sparse
  | _ => .Invalid

/-- `src/array/mod.rs`: the `Layout` enumeration. -/
inductive Layout where
  | RowMajor | ColMajor | GlobalOrder | Unordered | Hilbert | Invalid
deriving Repr, DecidableEq

/-- `impl From<u8> for Layout`. -/
def Layout.fromByte (orig : Nat) : Layout :=
  match orig with
  | 0 => .RowMajor
  | 1 => .ColMajor
  | 2 => .GlobalOrder
  | 3 => .Unordered
  | 4 => .Hilbert
  | _ => .Invalid

/-- `src/array/mod.rs`: the `DataOrder` enumeration. -/
inductive DataOrder where
  | Unordered | Increasing | Decreasing | Invalid
deriving Repr, DecidableEq

/-- `impl From<u8> for DataOrder`. -/
def DataOrder.fromByte (orig : Nat) : DataOrder :=
  match orig with
  | 0 => .Unordered
  | 1 => .Increasing
  | 2 => .Decreasing
  | _ => .Invalid

/-- `src/filters/mod.rs`: the `FilterType` enumeration. -/
inductive FilterType where
  | None | GZip | Zstd | LZ4 | Rle | BZip2 | DoubleDelta
  | BitWidthReduction | BitShuffle | ByteShuffle | PositiveDelta
  | Encryption | ChecksumMD5 | ChecksumSHA256 | Dictionary
  | ScaleFloat | Xor | Deprecated | WebP | Delta
  | Invalid
deriving Repr, DecidableEq

/-- `impl From<u8> for FilterType`. -/
def FilterType.fromByte (orig : Nat) : FilterType :=
  match orig with
  | 0 => .None
  | 1 => .GZip
  | 2 => .Zstd
  | 3 => .LZ4
  | 4 => .Rle
  | 5 => .BZip2
  | 6 => .DoubleDelta
  | 7 => .BitWidthReduction
  | 8 => .BitShuffle
  | 9 => .ByteShuffle
  | 10 => .PositiveDelta
  | 11 => .Encryption
  | 12 => .ChecksumMD5
  | 13 => .ChecksumSHA256
  | 14 => .Dictionary
  | 15 => .ScaleFloat
  | 16 => .Xor
  | 17 => .Deprecated
  | 18 => .WebP
  | 19 => .Delta
  | _ => .Invalid

/-- `src/storage/filter.rs` `is_compression_filter` (note: includes LZ4). -/
def is_compression_filter (ftype : FilterType) :=
  match ftype with
  | .GZip | .Zstd | .LZ4 | .Rle | .BZip2
  | .Delta | .DoubleDelta | .Dictionary => true
  | _ => false

/-- `src/storage/filter.rs` `is_bit_width_reduction_filter`. -/
def is_bit_width_reduction_filter (ftype : FilterType) :=
  match ftype with
  | .BitWidthReduction => true
  | _ => false

/-- `src/storage/filter.rs` `is_positive_delta_filter`. -/
def is_positive_delta_filter (ftype : FilterType) :=
  match ftype with
  | .PositiveDelta => true
  | _ => false

/-- `src/storage/filter.rs` `is_scale_float_filter`. -/
def is_scale_float_filter (ftype : FilterType) :=
  match ftype with
  | .ScaleFloat => true
  | _ => false

/-- `src/storage/filter.rs` `is_webp_filter`. -/
def is_webp_filter (ftype : FilterType) :=
  match ftype with
  | .WebP => true
  | _ => false

/-- `src/storage/filter.rs` `is_no_config_filter`. -/
def is_no_config_filter (ftype : FilterType) :=
  !(is_compression_filter ftype || is_bit_width_reduction_filter ftype
    || is_positive_delta_filter ftype || is_scale_float_filter ftype
    || is_webp_filter ftype)

/-- `src/storage/filter.rs` `has_reinterpret_type`. -/
def has_reinterpret_type (version : Nat) (filter_type : FilterType) :=
  if version ≥ 19 ∧ filter_type = FilterType.Delta then true
  else if version ≥ 20 ∧ filter_type = FilterType.DoubleDelta then true
  else false

/-- `src/storage/filter.rs` `FilterConfig`: kind-dependent configuration
payload. Floating-point fields (`scale`, `offset`, `quality`) are kept as
their raw little-endian bit patterns, which the codec never interprets. -/
inductive FilterConfig where
  | Compression (compressor_type : FilterType) (compression_level : Int)
      (reinterpret_type : Nat)
  | BitWidthReduction (max_window_size : Nat)
  | PositiveDelta (max_window_size : Nat)
  | ScaleFloat (scale : Nat) (offset : Nat) (byte_width : Nat)
  | WebP (quality : Nat) (format : Nat) (lossless : Nat)
      (y_extent : Nat) (x_extent : Nat)
  | NoConfig
deriving Repr, DecidableEq

/-- binrw-generated reader for `FilterConfig`, dispatching on the
`pre_assert` classification of `filter_type` (version-aware variant from
`src/storage/filter.rs`). -/
def parseFilterConfig (version : Nat) (filter_type : FilterType)
    (bs : List Nat) : DRes (FilterConfig × List Nat) :=
  if is_compression_filter filter_type then do
    let (ct, bs) ← readU8 bs
    let compressor_type := FilterType.fromByte ct
    let (compression_level, bs) ← readI32 bs
    let (reinterpret_type, bs) ←
      if has_reinterpret_type version filter_type then readU8 bs
      else pure (0, bs)
    pure (.Compression compressor_type compression_level reinterpret_type, bs)
  else if is_bit_width_reduction_filter filter_type then do
    let (w, bs) ← readU32 bs
    pure (.BitWidthReduction w, bs)
  else if is_positive_delta_filter filter_type then do
    let (w, bs) ← readU32 bs
    pure (.PositiveDelta w, bs)
  else if is_scale_float_filter filter_type then do
    let (scale, bs) ← readU64 bs
    let (offset, bs) ← readU64 bs
    let (byte_width, bs) ← readU64 bs
    pure (.ScaleFloat scale offset byte_width, bs)
  else if is_webp_filter filter_type then do
    let (quality, bs) ← readU32 bs
    let (format, bs) ← readU8 bs
    let (lossless, bs) ← readU8 bs
    let (y_extent, bs) ← readU16 bs
    let (x_extent, bs) ← readU16 bs
    pure (.WebP quality format lossless y_extent x_extent, bs)
  else
    pure (.NoConfig, bs)

/-- `src/storage/filter.rs` `Filter`: a decoded filter descriptor. -/
structure Filter where
  filter_type : FilterType
  metadata_len : Nat
  config : FilterConfig
deriving Repr, DecidableEq

/-- binrw `#[br(if(cond, default))]` directive: run the field reader when
the condition holds, otherwise produce the default without consuming
input. -/
def brIf {α : Type} (c : Prop) [Decidable c]
    (p : List Nat → DRes (α × List Nat)) (dflt : α) (bs : List Nat) :
    DRes (α × List Nat) :=
  if c then p bs else pure (dflt, bs)

/-- binrw `#[br(assert(cond, msg))]` directive: checked right after the
field it annotates is resolved; failure is a decode error. -/
def brAssert (c : Prop) [Decidable c] (msg : String) : DRes Unit :=
  if c then pure () else throw (.failed msg)

/-- Read one byte and convert it through a total byte-to-enum map. -/
def readEnum {α : Type} (conv : Nat → α) (bs : List Nat) :
    DRes (α × List Nat) := do
  let (b, bs) ← readU8 bs
  pure (conv b, bs)

/-- binrw-generated reader for `Filter`: a 1-byte kind tag (with the
`assert(!matches!(filter_type, FilterType::Invalid))` field assertion),
a 4-byte metadata length, then the kind-specific configuration. -/
def parseFilter (version : Nat) (bs : List Nat) : DRes (Filter × List Nat) := do
  let (filter_type, bs) ← readEnum FilterType.fromByte bs
  let _ ← brAssert (filter_type ≠ FilterType.Invalid) "filter_type is Invalid"
  let (metadata_len, bs) ← readU32 bs
  let (config, bs) ← parseFilterConfig version filter_type bs
  pure ({ filter_type, metadata_len, config }, bs)

/-- `src/storage/filter.rs` `FilterList`: a decoded filter pipeline. -/
structure FilterList where
  max_chunk_size : Nat
  num_filters : Nat
  filters : List Filter
deriving Repr, DecidableEq

/-- Rust `FilterList::default()` (all fields zero / empty). -/
def FilterList.default : FilterList := { max_chunk_size := 0, num_filters := 0, filters := [] }

/-- Read `n` consecutive filter descriptors (binrw `count(num_filters)`). -/
def parseFilters (version : Nat) : Nat → List Nat → DRes (List Filter × List Nat)
  | 0, bs => pure ([], bs)
  | n + 1, bs => do
    let (f, bs) ← parseFilter version bs
    let (fs, bs) ← parseFilters version n bs
    pure (f :: fs, bs)

/-- binrw-generated reader for `FilterList`: `max_chunk_size`,
`num_filters`, then that many descriptors. -/
def parseFilterList (version : Nat) (bs : List Nat) :
    DRes (FilterList × List Nat) := do
  let (max_chunk_size, bs) ← readU32 bs
  let (num_filters, bs) ← readU32 bs
  let (filters, bs) ← parseFilters version num_filters bs
  pure ({ max_chunk_size, num_filters, filters }, bs)

/-- `src/storage/mod.rs` `Chunk`: one filtered chunk of a tile payload.
The `data_size` and `metadata_size` wire fields are represented by the
lengths of the corresponding byte lists. -/
structure Chunk where
  original_size : Nat
  metadata : List Nat
  data : List Nat
deriving Repr, DecidableEq

/-- Rust `Chunk::default()`. -/
def Chunk.default : Chunk := { original_size := 0, metadata := [], data := [] }

/-- binrw-generated reader for `Chunk`. -/
def parseChunk (bs : List Nat) : DRes (Chunk × List Nat) := do
  let (original_size, bs) ← readU32 bs
  let (data_size, bs) ← readU32 bs
  let (metadata_size, bs) ← readU32 bs
  let (metadata, bs) ← readBytes metadata_size bs
  let (data, bs) ← readBytes data_size bs
  pure ({ original_size, metadata, data }, bs)

/-- `src/storage/mod.rs` `ChunkedData`: the chunked tile payload. -/
structure ChunkedData where
  num_chunks : Nat
  chunks : List Chunk
deriving Repr, DecidableEq

/-- `ChunkedData::new`: `num_chunks` default-initialized chunks. -/
def ChunkedData.new (num_chunks : Nat) : ChunkedData :=
  { num_chunks, chunks := List.replicate num_chunks Chunk.default }

/-- Read `n` consecutive chunks. -/
def parseChunks : Nat → List Nat → DRes (List Chunk × List Nat)
  | 0, bs => pure ([], bs)
  | n + 1, bs => do
    let (c, bs) ← parseChunk bs
    let (cs, bs) ← parseChunks n bs
    pure (c :: cs, bs)

/-- binrw-generated reader for `ChunkedData`. -/
def parseChunkedData (bs : List Nat) : DRes (ChunkedData × List Nat) := do
  let (num_chunks, bs) ← readU64 bs
  let (chunks, bs) ← parseChunks num_chunks bs
  pure ({ num_chunks, chunks }, bs)

/-- `src/storage/mod.rs` `CompressionChunkInfo`: one compressed part. -/
structure CompressionChunkInfo where
  uncompressed_size : Nat
  compressed_size : Nat
deriving Repr, DecidableEq

/-- Read `n` consecutive `CompressionChunkInfo` records. -/
def parseCompressionParts : Nat → List Nat → DRes (List CompressionChunkInfo × List Nat)
  | 0, bs => pure ([], bs)
  | n + 1, bs => do
    let (u, bs) ← readU32 bs
    let (c, bs) ← readU32 bs
    let (ps, bs) ← parseCompressionParts n bs
    pure ({ uncompressed_size := u, compressed_size := c } :: ps, bs)

/-- `src/storage/mod.rs` `CompressionChunks`: the nested sub-framing held
in a chunk's `metadata` for compression filters. -/
structure CompressionChunks where
  metadata_parts : List CompressionChunkInfo
  data_parts : List CompressionChunkInfo
deriving Repr, DecidableEq

/-- binrw-generated reader for `CompressionChunks`. -/
def parseCompressionChunks (bs : List Nat) :
    DRes (CompressionChunks × List Nat) := do
  let (num_metadata_parts, bs) ← readU32 bs
  let (num_data_parts, bs) ← readU32 bs
  let (metadata_parts, bs) ← parseCompressionParts num_metadata_parts bs
  let (data_parts, bs) ← parseCompressionParts num_data_parts bs
  pure ({ metadata_parts, data_parts }, bs)

/-- Rust `Vec::resize(n, 0)`: truncate to `n` or extend with zeros. -/
def vecResize (v : List Nat) (n : Nat) : List Nat :=
  v.take n ++ List.replicate (n - v.length) 0

/-- Abstract decompression primitive (the Rust `&dyn Fn(&[u8], &mut [u8])`
passed to `compression::decompress`, or `GZipFilter::decompress`): given
the compressed input slice and the length of the output slice, return the
bytes written into the output slice, or an error message. -/
abbrev DecompressFn := List Nat → Nat → Except String (List Nat)

/-- Per-part loop of `src/filters/compression.rs` `decompress` (the local
`decompress` closure applied over a parts list): slice
`input.data[input_offset..input_offset+compressed_size]`, decompress it
into `outBuf[output_offset..output_offset+uncompressed_size]`, and advance
both cursors.  Out-of-range slice bounds are a Rust panic. Returns the
updated output buffer and the final input cursor. -/
def decompressParts (dd : DecompressFn) (inputData : List Nat) :
    List CompressionChunkInfo → List Nat → Nat → Nat → DRes (List Nat × Nat)
  | [], outBuf, input_offset, _ => pure (outBuf, input_offset)
  | part :: rest, outBuf, input_offset, output_offset =>
    if input_offset + part.compressed_size ≤ inputData.length then
      if output_offset + part.uncompressed_size ≤ outBuf.length then
        match dd ((inputData.drop input_offset).take part.compressed_size)
            part.uncompressed_size with
        | .error e => throw (.failed e)
        | .ok res =>
          decompressParts dd inputData rest
            (outBuf.take output_offset ++ res
              ++ outBuf.drop (output_offset + part.uncompressed_size))
            (input_offset + part.compressed_size)
            (output_offset + part.uncompressed_size)
      else throw (.panicked "slice index out of range")
    else throw (.panicked "slice index out of range")

/-- `src/filters/compression.rs` `decompress` (also the body of
`GZipFilter::unfilter` in `src/filters/gzip.rs`, which duplicates it with
`self.decompress` as the primitive): decode the chunk's `metadata` as a
`CompressionChunks` framing, resize the output buffers to the summed
uncompressed sizes, then run the metadata-parts pass and the data-parts
pass with one continuous input cursor and per-pass output cursors. -/
def decompress (dd : DecompressFn) (input output : Chunk) : DRes Chunk := do
  let (comp_info, _) ← parseCompressionChunks input.metadata
  let total_metadata_size :=
    (comp_info.metadata_parts.map (fun c => c.uncompressed_size)).sum
  let outMetadata := vecResize output.metadata total_metadata_size
  let total_data_size :=
    (comp_info.data_parts.map (fun c => c.uncompressed_size)).sum
  let outData := vecResize output.data total_data_size
  let (outMetadata, input_offset) ←
    decompressParts dd input.data comp_info.metadata_parts outMetadata 0 0
  let (outData, _) ←
    decompressParts dd input.data comp_info.data_parts outData input_offset 0
  pure { output with metadata := outMetadata, data := outData }

/-- `src/filters/gzip.rs` `GZipFilter`. -/
structure GZipFilter where
  level : Nat
deriving Repr, DecidableEq

/-- `GZipFilter::from_config`: accepts only a `Compression` config
(any other config is a Rust panic); clamps a non-negative level to 10,
and falls back to the default level 6 for negative levels. -/
def GZipFilter.from_config (config : FilterConfig) : DRes GZipFilter :=
  match config with
  | .Compression _ compression_level _ =>
    if compression_level ≥ 0 then
      pure { level := (min compression_level 10).toNat }
    else
      pure { level := 6 }
  | _ => throw (.panicked "Invalid filter config for gzip filter")

/-- An executable filter instance (the `Box<dyn Filter>` values this build
can actually construct: `EmptyFilter` and `GZipFilter`). -/
inductive FilterInstance where
  | empty
  | gzip (level : Nat)
deriving Repr, DecidableEq

/-- `impl TryFrom<&storage::Filter> for Box<dyn Filter>`
(`src/filters/mod.rs` lines 82-94): `None` and `GZip` are instantiable;
every other kind is an `anyhow` error. -/
def tryFromFilter (f : Filter) : DRes FilterInstance :=
  match f.filter_type with
  | .None => pure .empty
  | .GZip => do
    let g ← GZipFilter.from_config f.config
    pure (.gzip g.level)
  | _ => throw (.failed "Unsupported filter type")

/-- `src/filters/mod.rs` `create_filter`: like `tryFromFilter` but an
unsupported kind is a Rust panic rather than an error. -/
def create_filter (filter : Filter) : DRes FilterInstance :=
  match filter.filter_type with
  | .None => pure .empty
  | .GZip => do
    let g ← GZipFilter.from_config filter.config
    pure (.gzip g.level)
  | _ => throw (.panicked "Unsupported filter type")

/-- The behaviour of a `dyn Filter`'s `unfilter(&mut input, &mut output)`:
a function from the two chunks to their post-call values. -/
abbrev FilterF := Chunk → Chunk → DRes (Chunk × Chunk)

/-- `src/filters/mod.rs` `FilterChain`: a filter plus an optional
successor chain, generic in the filter representation (`Box<dyn Filter>`
holds arbitrary filter behaviours). -/
inductive FilterChain (φ : Type) where
  | mk (filter : φ) (next : Option (FilterChain φ))

/-- Behaviour of the instantiable filters. `EmptyFilter::unfilter` swaps
the input and output chunks; `GZipFilter::unfilter` decompresses `input`
into `output` (leaving `input` unchanged) using the inflate primitive. -/
def FilterInstance.run (inflate : DecompressFn) : FilterInstance → FilterF
  | .empty => fun input output => pure (output, input)
  | .gzip _ => fun input output => do
    let out ← decompress inflate input output
    pure (input, out)

/-- Map a function over every filter of a chain. -/
def FilterChain.mapFilters {φ ψ : Type} (g : φ → ψ) :
    FilterChain φ → FilterChain ψ
  | .mk f none => .mk (g f) none
  | .mk f (some next) => .mk (g f) (some (next.mapFilters g))

/-- `FilterChain::from_list` (`src/filters/mod.rs` lines 112-122): walk
the descriptor list in reverse, nesting each new instance around the chain
built so far; an empty list is a Rust panic. -/
def FilterChain.from_list (list : FilterList) :
    DRes (FilterChain FilterInstance) := do
  let chain ← list.filters.reverse.foldlM
    (fun acc filter => do
      let f ← create_filter filter
      pure (some (FilterChain.mk f acc)))
    (none : Option (FilterChain FilterInstance))
  match chain with
  | some c => pure c
  | none => throw (.panicked "Failed to create filter chain.")

/-- `impl TryFrom<&storage::FilterList> for Box<FilterChain>`
(`src/filters/mod.rs` lines 172-191), translated faithfully: the loop
converts each descriptor and builds a node, but the node is discarded
(the `Some(...)` expression is never assigned to `chain`), so `chain`
remains `None` when the final `match` runs. -/
def tryFromFilterList (list : FilterList) :
    DRes (FilterChain FilterInstance) := do
  let chain : Option (FilterChain FilterInstance) := none
  list.filters.reverse.forM (fun filter => do
    let converted ← tryFromFilter filter
    let _ := some (FilterChain.mk converted chain)
    pure ())
  match chain with
  | some val => pure val
  | none => throw (.failed "Empty filter list!")

/-- `FilterChain::unfilter` (`src/filters/mod.rs` lines 124-138): with no
successor, apply this filter to the chunks directly; otherwise first
recursively unfilter via the successor, then swap the input and output
chunks (`std::mem::swap`), then apply this filter. -/
def FilterChain.unfilter : FilterChain FilterF → Chunk → Chunk → DRes (Chunk × Chunk)
  | .mk f none, input, output => f input output
  | .mk f (some next), input, output => do
    let (input, output) ← next.unfilter input output
    f output input

/-- Concatenation loop of `FilterChain::unfilter_chunks`: for each
(input, output) chunk pair, copy `chunk_out.data` into
`output[output_offset..output_offset+chunk_in.original_size]`.
`copy_from_slice` with mismatched lengths, or an out-of-range slice,
is a Rust panic. -/
def copyChunks : List (Chunk × Chunk) → List Nat → Nat → DRes (List Nat)
  | [], output, _ => pure output
  | (chunk_in, chunk_out) :: rest, output, output_offset =>
    let output_end := output_offset + chunk_in.original_size
    if output_end ≤ output.length then
      if chunk_out.data.length = chunk_in.original_size then
        copyChunks rest
          (output.take output_offset ++ chunk_out.data ++ output.drop output_end)
          output_end
      else throw (.panicked "copy_from_slice length mismatch")
    else throw (.panicked "slice index out of range")

/-- `FilterChain::unfilter_chunks` (`src/filters/mod.rs` lines 140-169):
run the chain on each chunk (into a default-initialized scratch chunk),
then size a single output buffer from the (post-run) input chunks'
`original_size` fields and copy each scratch chunk's data into it. -/
def FilterChain.unfilter_chunks (chain : FilterChain FilterF)
    (chunks : ChunkedData) : DRes (List Nat) := do
  let scratch := ChunkedData.new chunks.num_chunks
  let pairs ← (chunks.chunks.zip scratch.chunks).mapM
    (fun p => chain.unfilter p.1 p.2)
  let chunksAfter := pairs.map Prod.fst
  let scratchAfter := pairs.map Prod.snd
  let output_size := (chunksAfter.map (fun c => c.original_size)).sum
  let output := List.replicate output_size 0
  copyChunks (chunksAfter.zip scratchAfter) output 0

/-- Build a chain from a list of filters in write-time order, mirroring
the reverse-fold construction of `FilterChain::from_list`; `none` for an
empty list. -/
def chainFromFilters {φ : Type} (fs : List φ) : Option (FilterChain φ) :=
  fs.reverse.foldl (fun acc f => some (.mk f acc)) none

/-- A synthetic marker filter: applies a pure transform to the input
chunk's data and stores the result as the output chunk's data. -/
def markerFilter (g : List Nat → List Nat) : FilterF :=
  fun input output => pure (input, { output with data := g input.data })

/-- Composition of write-time transforms in unfiltering order: the
last-applied (innermost) transform acts first, the first-applied (head)
transform acts last. -/
def composeTransforms : List (List Nat → List Nat) → List Nat → List Nat
  | [], d => d
  | g :: gs, d => g (composeTransforms gs d)

/-- The final output data produced by a chain's `unfilter`. -/
def unfilterData (c : FilterChain FilterF) (input output : Chunk) :
    DRes (List Nat) :=
  (c.unfilter input output).map (fun p => p.2.data)

/-- Is `b` a UTF-8 continuation byte (0x80..=0xBF)? -/
def isCont (b : Nat) := decide (0x80 ≤ b ∧ b ≤ 0xBF)

/-- UTF-8 validity of a byte sequence, as checked by Rust's
`String::from_utf8` (rejecting overlong encodings, surrogates, and
values above U+10FFFF). -/
def utf8Valid : List Nat → Bool
  | [] => true
  | b :: rest =>
    if b ≤ 0x7F then utf8Valid rest
    else if b < 0xC2 then false
    else if b ≤ 0xDF then
      match rest with
      | b1 :: rest2 => isCont b1 && utf8Valid rest2
      | [] => false
    else if b ≤ 0xEF then
      match rest with
      | b1 :: b2 :: rest2 =>
        (if b = 0xE0 then decide (0xA0 ≤ b1 ∧ b1 ≤ 0xBF)
         else if b = 0xED then decide (0x80 ≤ b1 ∧ b1 ≤ 0x9F)
         else isCont b1) && isCont b2 && utf8Valid rest2
      | _ => false
    else if b ≤ 0xF4 then
      match rest with
      | b1 :: b2 :: b3 :: rest2 =>
        (if b = 0xF0 then decide (0x90 ≤ b1 ∧ b1 ≤ 0xBF)
         else if b = 0xF4 then decide (0x80 ≤ b1 ∧ b1 ≤ 0x8F)
         else isCont b1) && isCont b2 && isCont b3 && utf8Valid rest2
      | _ => false
    else false

/-- Read `n` bytes and convert them with `String::from_utf8(v).unwrap()`:
invalid UTF-8 is a Rust panic (the `unwrap` on an `Err`). -/
def readUtf8Unwrap (n : Nat) (bs : List Nat) : DRes (List Nat × List Nat) := do
  let (v, bs) ← readBytes n bs
  if utf8Valid v then pure (v, bs)
  else throw (.panicked "String::from_utf8 failed")

/-- Read `n` bytes and convert them with `String::from_utf8` mapped to a
`binrw::Error::Custom`: invalid UTF-8 is a recoverable decode error. -/
def readUtf8Custom (n : Nat) (bs : List Nat) : DRes (List Nat × List Nat) := do
  let (v, bs) ← readBytes n bs
  if utf8Valid v then pure (v, bs)
  else throw (.failed "invalid utf-8 sequence")

/-- `src/storage/mod.rs` `CURRENT_FORMAT_VERSION`. -/
def CURRENT_FORMAT_VERSION : Nat := 21

/-- `src/storage/schema.rs` `CELL_VAR_SIZE` (`u32::MAX`). -/
def CELL_VAR_SIZE : Nat := 4294967295

/-- `src/storage/schema.rs` `cell_val_size`: variable-length sentinel for
string-like types, 1 otherwise. -/
def cell_val_size (dtype : DataType) : Nat :=
  if dtype.is_string_type then CELL_VAR_SIZE else 1

/-- `src/storage/schema.rs` `Dimension`. -/
structure Dimension where
  name : List Nat
  data_type : DataType
  cell_val_num : Nat
  coords_filters : FilterList
  domain_size : Nat
  range : List Nat
  null_tile_extent : Nat
  tile_extent : List Nat
deriving Repr, DecidableEq

/-- binrw-generated reader for `Dimension`, with imports
`(version, dtype, coords_filters)` from the domain: the per-dimension
`data_type` / `cell_val_num` / `coords_filters` fields are read only when
`version >= 5`, defaulting otherwise to the domain's data type, the
computed `cell_val_size(dtype)`, and the domain-level filter list. -/
def parseDimension (version : Nat) (dtype : DataType)
    (coords_filters : FilterList) (bs : List Nat) :
    DRes (Dimension × List Nat) := do
  let (name_size, bs) ← readU32 bs
  let (name, bs) ← readBytes name_size bs
  let (data_type, bs) ←
    brIf (5 ≤ version) (readEnum DataType.fromByte) dtype bs
  let _ ← brAssert (data_type ≠ DataType.Invalid) "data_type is Invalid"
  let (cell_val_num, bs) ←
    brIf (5 ≤ version) readU32 (cell_val_size dtype) bs
  let (coords_filters, bs) ←
    brIf (5 ≤ version) (parseFilterList version) coords_filters bs
  let (domain_size, bs) ←
    brIf (5 ≤ version) readU64 (2 * data_type.size) bs
  let (range, bs) ← readBytes domain_size bs
  let (null_tile_extent, bs) ← readU8 bs
  let (tile_extent, bs) ←
    brIf (null_tile_extent = 0) (readBytes data_type.size) [] bs
  pure ({ name, data_type, cell_val_num, coords_filters, domain_size,
          range, null_tile_extent, tile_extent }, bs)

/-- `src/storage/schema.rs` `Domain`. -/
structure Domain where
  data_type : DataType
  num_dimensions : Nat
  dimensions : List Dimension
deriving Repr, DecidableEq

/-- Read `n` consecutive dimensions. -/
def parseDimensions (version : Nat) (dtype : DataType)
    (coords_filters : FilterList) :
    Nat → List Nat → DRes (List Dimension × List Nat)
  | 0, bs => pure ([], bs)
  | n + 1, bs => do
    let (d, bs) ← parseDimension version dtype coords_filters bs
    let (ds, bs) ← parseDimensions version dtype coords_filters n bs
    pure (d :: ds, bs)

/-- binrw-generated reader for `Domain`: the domain-level `data_type`
byte exists only when `version < 5` (else it defaults to `Int32`). -/
def parseDomain (version : Nat) (coords_filters : FilterList)
    (bs : List Nat) : DRes (Domain × List Nat) := do
  let (data_type, bs) ←
    brIf (version < 5) (readEnum DataType.fromByte) DataType.Int32 bs
  let _ ← brAssert (data_type ≠ DataType.Invalid) "data_type is Invalid"
  let (num_dimensions, bs) ← readU32 bs
  let (dimensions, bs) ←
    parseDimensions version data_type coords_filters num_dimensions bs
  pure ({ data_type, num_dimensions, dimensions }, bs)

/-- `src/storage/schema.rs` `Attribute` (the `name` field is the byte
content of the Rust `String`). -/
structure Attribute where
  name : List Nat
  data_type : DataType
  cell_val_num : Nat
  filters : FilterList
  fill_value_size : Nat
  fill_value : List Nat
  nullable : Nat
  fill_value_validity : Nat
  data_order : DataOrder
  enmr_name_length : Nat
  enumeration_name : List Nat
deriving Repr, DecidableEq

/-- binrw-generated reader for `Attribute`.  The name bytes are converted
with `String::from_utf8(v).unwrap()`: invalid UTF-8 is a Rust panic, not
a decode error.  `fill_value_size` is read only when `version >= 6`,
`nullable` and `fill_value_validity` only when `version >= 7`,
`data_order` only when `version >= 17`, and `enmr_name_length` only when
`version >= 20`. -/
def parseAttribute (version : Nat) (bs : List Nat) :
    DRes (Attribute × List Nat) := do
  let (name_size, bs) ← readU32 bs
  let (name, bs) ← readUtf8Unwrap name_size bs
  let (data_type, bs) ← readEnum DataType.fromByte bs
  let _ ← brAssert (data_type ≠ DataType.Invalid) "data_type is Invalid"
  let (cell_val_num, bs) ← readU32 bs
  let (filters, bs) ← parseFilterList version bs
  let (fill_value_size, bs) ← brIf (6 ≤ version) readU64 0 bs
  let (fill_value, bs) ← readBytes fill_value_size bs
  let (nullable, bs) ← brIf (7 ≤ version) readU8 0 bs
  let (fill_value_validity, bs) ← brIf (7 ≤ version) readU8 0 bs
  let (data_order, bs) ←
    brIf (17 ≤ version) (readEnum DataOrder.fromByte) DataOrder.Unordered bs
  let _ ← brAssert (data_order ≠ DataOrder.Invalid) "data_order is Invalid"
  let (enmr_name_length, bs) ← brIf (20 ≤ version) readU32 0 bs
  let (enumeration_name, bs) ← readBytes enmr_name_length bs
  pure ({ name, data_type, cell_val_num, filters, fill_value_size,
          fill_value, nullable, fill_value_validity, data_order,
          enmr_name_length, enumeration_name }, bs)

/-- Read `n` consecutive attributes. -/
def parseAttributes (version : Nat) :
    Nat → List Nat → DRes (List Attribute × List Nat)
  | 0, bs => pure ([], bs)
  | n + 1, bs => do
    let (a, bs) ← parseAttribute version bs
    let (as_, bs) ← parseAttributes version n bs
    pure (a :: as_, bs)

/-- `src/storage/schema.rs` `DimensionLabel`. -/
structure DimensionLabel where
  dimension_id : Nat
  name : List Nat
  relative_uri : Nat
  uri : List Nat
  attribute_name : List Nat
  data_order : DataOrder
  data_type : DataType
  cell_val_num : Nat
  is_external : Nat
deriving Repr, DecidableEq

/-- binrw-generated reader for `DimensionLabel`. -/
def parseDimensionLabel (bs : List Nat) : DRes (DimensionLabel × List Nat) := do
  let (dimension_id, bs) ← readU32 bs
  let (name_len, bs) ← readU32 bs
  let (name, bs) ← readBytes name_len bs
  let (relative_uri, bs) ← readU8 bs
  let (uri_size, bs) ← readU64 bs
  let (uri, bs) ← readBytes uri_size bs
  let (attribute_name_len, bs) ← readU32 bs
  let (attribute_name, bs) ← readBytes attribute_name_len bs
  let (data_order, bs) ← readEnum DataOrder.fromByte bs
  let _ ← brAssert (data_order ≠ DataOrder.Invalid) "data_order is Invalid"
  let (data_type, bs) ← readEnum DataType.fromByte bs
  let _ ← brAssert (data_type ≠ DataType.Invalid) "data_type is Invalid"
  let (cell_val_num, bs) ← readU32 bs
  let (is_external, bs) ← readU8 bs
  pure ({ dimension_id, name, relative_uri, uri, attribute_name,
          data_order, data_type, cell_val_num, is_external }, bs)

/-- Read `n` consecutive dimension labels. -/
def parseDimensionLabels :
    Nat → List Nat → DRes (List DimensionLabel × List Nat)
  | 0, bs => pure ([], bs)
  | n + 1, bs => do
    let (l, bs) ← parseDimensionLabel bs
    let (ls, bs) ← parseDimensionLabels n bs
    pure (l :: ls, bs)

/-- The enumeration name map, modelled as an association list of
(name bytes, path bytes) with `HashMap::insert` replace-on-duplicate
semantics. -/
abbrev EnumMap := List (List Nat × List Nat)

/-- `HashMap::insert`: replace an existing binding or append a new one. -/
def enumMapInsert (m : EnumMap) (k v : List Nat) : EnumMap :=
  if m.any (fun p => p.1 = k) then
    m.map (fun p => if p.1 = k then (k, v) else p)
  else m ++ [(k, v)]

/-- Entry loop of `enumeration_name_map_parser`: each entry is a
length-prefixed name and a length-prefixed path; non-UTF-8 bytes are
mapped to a (recoverable) custom decode error. -/
def parseEnumEntries : Nat → EnumMap → List Nat → DRes (EnumMap × List Nat)
  | 0, m, bs => pure (m, bs)
  | n + 1, m, bs => do
    let (name_size, bs) ← readU32 bs
    let (name, bs) ← readUtf8Custom name_size bs
    let (path_size, bs) ← readU32 bs
    let (path, bs) ← readUtf8Custom path_size bs
    parseEnumEntries n (enumMapInsert m name path) bs

/-- `src/storage/schema.rs` `enumeration_name_map_parser`: returns the
empty map without reading anything when `version < 20`; otherwise reads a
32-bit entry count followed by that many entries. -/
def parseEnumerationNameMap (version : Nat) (bs : List Nat) :
    DRes (EnumMap × List Nat) := do
  if version < 20 then pure ([], bs)
  else do
    let (num_entries, bs) ← readU32 bs
    parseEnumEntries num_entries [] bs

/-- `src/storage/schema.rs` `ArraySchema`. -/
structure ArraySchema where
  version : Nat
  allows_dups : Nat
  array_type : ArrayType
  tile_order : Layout
  cell_order : Layout
  capacity : Nat
  coords_filters : FilterList
  cell_var_filters : FilterList
  cell_validity_filters : FilterList
  domain : Domain
  num_attributes : Nat
  attributes : List Attribute
  num_dimension_labels : Nat
  dimension_labels : List DimensionLabel
  enumeration_map : EnumMap
deriving Repr, DecidableEq

/-- First stage of the `ArraySchema` reader: the `version` field with its
`assert(version <= storage::CURRENT_FORMAT_VERSION)` check. -/
def parseSchemaVersion (bs : List Nat) : DRes (Nat × List Nat) := do
  let (version, bs) ← readU32 bs
  if version ≤ CURRENT_FORMAT_VERSION then pure (version, bs)
  else throw (.failed "Invalid version is newer than library version")

/-- binrw-generated reader for `ArraySchema` (`src/storage/schema.rs`
lines 162-222): a strict sequential cursor read whose field presence is
gated by the already-read `version`. -/
def parseArraySchema (bs : List Nat) : DRes (ArraySchema × List Nat) := do
  let (version, bs) ← parseSchemaVersion bs
  let (allows_dups, bs) ← brIf (5 ≤ version) readU8 0 bs
  let (array_type, bs) ← readEnum ArrayType.fromByte bs
  let _ ← brAssert (array_type ≠ ArrayType.Invalid) "array_type is Invalid"
  let (tile_order, bs) ← readEnum Layout.fromByte bs
  let _ ← brAssert (tile_order ≠ Layout.Invalid) "tile_order is Invalid"
  let (cell_order, bs) ← readEnum Layout.fromByte bs
  let _ ← brAssert (cell_order ≠ Layout.Invalid) "cell_order is Invalid"
  let (capacity, bs) ← readU64 bs
  let (coords_filters, bs) ← parseFilterList version bs
  let (cell_var_filters, bs) ← parseFilterList version bs
  let (cell_validity_filters, bs) ←
    brIf (7 ≤ version) (parseFilterList version) FilterList.default bs
  let (domain, bs) ← parseDomain version coords_filters bs
  let (num_attributes, bs) ← readU32 bs
  let (attributes, bs) ← parseAttributes version num_attributes bs
  let (num_dimension_labels, bs) ← brIf (18 ≤ version) readU32 0 bs
  let (dimension_labels, bs) ←
    parseDimensionLabels num_dimension_labels bs
  let (enumeration_map, bs) ← parseEnumerationNameMap version bs
  pure ({ version, allows_dups, array_type, tile_order, cell_order,
          capacity, coords_filters, cell_var_filters,
          cell_validity_filters, domain, num_attributes, attributes,
          num_dimension_labels, dimension_labels,
          enumeration_map }, bs)

/-! Concrete test vectors used by the theorems below. -/

/-- `true` iff the result is `ok` (Rust `Result::is_ok`). -/
def dresIsOk {α : Type} : DRes α → Bool
  | .ok _ => true
  | .error _ => false

/-- A decoded pipeline holding a single `None` filter. -/
def oneNoneFilterList : FilterList :=
  { max_chunk_size := 0, num_filters := 1,
    filters := [{ filter_type := .None, metadata_len := 0, config := .NoConfig }] }

/-- The spec's scenario chunk: `original_size = 13`,
`data = b"Hello, world!"`, no metadata. -/
def helloChunk : Chunk :=
  { original_size := 13, metadata := [],
    data := [72, 101, 108, 108, 111, 44, 32, 119, 111, 114, 108, 100, 33] }

/-- A one-chunk payload holding `helloChunk`. -/
def helloChunkedData : ChunkedData := { num_chunks := 1, chunks := [helloChunk] }

/-- An inflate primitive that fills the output slice with zeros (its
behaviour is irrelevant to the theorems that use it). -/
def trivialInflate : DecompressFn := fun _ n => .ok (List.replicate n 0)

/-- Sample bytes for a filter descriptor with kind byte `b`: a zero
metadata length and enough zero bytes for any configuration shape. -/
def sampleFilterBytes (b : Nat) : List Nat :=
  b :: ([0, 0, 0, 0] ++ List.replicate 24 0)

/-- Wire bytes of a Zstd filter descriptor (no compression support for it
in this build). -/
def zstdFilterBytes : List Nat := [2, 0, 0, 0, 0, 0, 0, 0, 0, 0]

/-- The decoded Zstd filter descriptor for `zstdFilterBytes`. -/
def zstdFilter : Filter :=
  { filter_type := .Zstd, metadata_len := 0,
    config := .Compression .None 0 0 }

/-- `CompressionFraming` of the spec's scenario:
`metadata_parts = [(4, 2)]`, `data_parts = [(6, 3)]`. -/
def scenarioFraming : CompressionChunks :=
  { metadata_parts := [{ uncompressed_size := 4, compressed_size := 2 }],
    data_parts := [{ uncompressed_size := 6, compressed_size := 3 }] }

/-- Wire encoding of `scenarioFraming`. -/
def framingBytes : List Nat :=
  encodeU32 1 ++ encodeU32 1 ++ encodeU32 4 ++ encodeU32 2
  ++ encodeU32 6 ++ encodeU32 3

/-- Scenario input chunk: the framing in `metadata`, 5 compressed bytes
in `data`. -/
def scenarioInput : Chunk :=
  { original_size := 5, metadata := framingBytes, data := [10, 11, 12, 13, 14] }

/-- A decompression primitive that fills the output slice with sevens. -/
def ddConst : DecompressFn := fun _ n => .ok (List.replicate n 7)

/-- Expected decompression result of the scenario under `ddConst`. -/
def scenarioOutput : Chunk :=
  { original_size := 0, metadata := List.replicate 4 7,
    data := List.replicate 6 7 }

/-- A version-4 schema blob (empty domain, no attributes). -/
def v4blob : List Nat :=
  encodeU32 4 ++ [0, 0, 0] ++ encodeU64 0
  ++ encodeU32 0 ++ encodeU32 0
  ++ encodeU32 0 ++ encodeU32 0
  ++ [0]
  ++ encodeU32 0
  ++ encodeU32 0

/-- The schema decoded from `v4blob`. -/
def v4schema : ArraySchema :=
  { version := 4, allows_dups := 0, array_type := .Dense,
    tile_order := .RowMajor, cell_order := .RowMajor, capacity := 0,
    coords_filters := FilterList.default,
    cell_var_filters := FilterList.default,
    cell_validity_filters := FilterList.default,
    domain := { data_type := .Int32, num_dimensions := 0, dimensions := [] },
    num_attributes := 0, attributes := [], num_dimension_labels := 0,
    dimension_labels := [], enumeration_map := [] }

/-- A version-5 schema blob whose `allows_dups` byte is 1. -/
def v5blob : List Nat :=
  encodeU32 5 ++ [1] ++ [0, 0, 0] ++ encodeU64 0
  ++ encodeU32 0 ++ encodeU32 0
  ++ encodeU32 0 ++ encodeU32 0
  ++ encodeU32 0
  ++ encodeU32 0

/-- A version-7 schema blob whose `cell_validity_filters` list has
`max_chunk_size = 77`. -/
def v7blob : List Nat :=
  encodeU32 7 ++ [1] ++ [0, 0, 0] ++ encodeU64 0
  ++ encodeU32 0 ++ encodeU32 0
  ++ encodeU32 0 ++ encodeU32 0
  ++ encodeU32 77 ++ encodeU32 0
  ++ encodeU32 0
  ++ encodeU32 0

/-- Wire bytes of one dimension label. -/
def labelBytes : List Nat :=
  encodeU32 3 ++ encodeU32 1 ++ [108] ++ [1] ++ encodeU64 0
  ++ encodeU32 0 ++ [0] ++ [0] ++ encodeU32 1 ++ [1]

/-- A version-18 schema blob carrying one dimension label. -/
def v18blob : List Nat :=
  encodeU32 18 ++ [0] ++ [0, 0, 0] ++ encodeU64 0
  ++ encodeU32 0 ++ encodeU32 0
  ++ encodeU32 0 ++ encodeU32 0
  ++ encodeU32 0 ++ encodeU32 0
  ++ encodeU32 0
  ++ encodeU32 0
  ++ encodeU32 1 ++ labelBytes

/-- A version-20 schema blob carrying one enumeration-map entry
(name `n`, path `p`). -/
def v20blob : List Nat :=
  encodeU32 20 ++ [0] ++ [0, 0, 0] ++ encodeU64 0
  ++ encodeU32 0 ++ encodeU32 0
  ++ encodeU32 0 ++ encodeU32 0
  ++ encodeU32 0 ++ encodeU32 0
  ++ encodeU32 0
  ++ encodeU32 0
  ++ encodeU32 0
  ++ encodeU32 1
  ++ encodeU32 1 ++ [110]
  ++ encodeU32 1 ++ [112]

/-- A version-20 schema blob whose enumeration-map name is the invalid
UTF-8 byte 0xFF. -/
def v20blobBadName : List Nat :=
  encodeU32 20 ++ [0] ++ [0, 0, 0] ++ encodeU64 0
  ++ encodeU32 0 ++ encodeU32 0
  ++ encodeU32 0 ++ encodeU32 0
  ++ encodeU32 0 ++ encodeU32 0
  ++ encodeU32 0
  ++ encodeU32 0
  ++ encodeU32 0
  ++ encodeU32 1
  ++ encodeU32 1 ++ [255]

/-- A version-21 schema blob whose single attribute's name is the invalid
UTF-8 byte 0xFF. -/
def v21blobBadAttrName : List Nat :=
  encodeU32 21 ++ [0] ++ [0, 0, 0] ++ encodeU64 0
  ++ encodeU32 0 ++ encodeU32 0
  ++ encodeU32 0 ++ encodeU32 0
  ++ encodeU32 0 ++ encodeU32 0
  ++ encodeU32 0
  ++ encodeU32 1
  ++ encodeU32 1 ++ [255]

/-- A version-21 schema blob whose array-type byte is 2 (out of range). -/
def invalidArrayTypeBlob : List Nat := [21, 0, 0, 0, 0, 2]

/-- A domain-level filter list with `max_chunk_size = 42`. -/
def coordsFL42 : FilterList :=
  { max_chunk_size := 42, num_filters := 0, filters := [] }

/-- Wire bytes of a version-5 dimension with its own data type (`Int8`),
cell_val_num and coords filter list (`max_chunk_size = 9`). -/
def dimV5bytes : List Nat :=
  encodeU32 1 ++ [100]
  ++ [5]
  ++ encodeU32 1
  ++ encodeU32 9 ++ encodeU32 0
  ++ encodeU64 2
  ++ [7, 8]
  ++ [1]

/-- Wire bytes of a pre-version-5 dimension (no own data type /
cell_val_num / filters; 16 range bytes for a `Uint64` domain type). -/
def dimV4bytes : List Nat :=
  encodeU32 1 ++ [100]
  ++ List.replicate 16 3
  ++ [1]

/-- The dimension decoded from `dimV4bytes` at version 4 with domain type
`Uint64` and domain filters `coordsFL42`. -/
def dimV4parsed : Dimension :=
  { name := [100], data_type := .Uint64, cell_val_num := 1,
    coords_filters := coordsFL42, domain_size := 16,
    range := List.replicate 16 3, null_tile_extent := 1, tile_extent := [] }

/-- Wire bytes of a version-6 attribute. -/
def attrV6bytes : List Nat :=
  encodeU32 1 ++ [97] ++ [0] ++ encodeU32 1
  ++ encodeU32 0 ++ encodeU32 0
  ++ encodeU64 0

/-- The attribute decoded from `attrV6bytes` at version 6. -/
def attrV6parsed : Attribute :=
  { name := [97], data_type := .Int32, cell_val_num := 1,
    filters := FilterList.default, fill_value_size := 0, fill_value := [],
    nullable := 0, fill_value_validity := 0, data_order := .Unordered,
    enmr_name_length := 0, enumeration_name := [] }

/-- Wire bytes of a version-7 attribute with `nullable = 1` and
`fill_value_validity = 1`. -/
def attrV7bytes : List Nat :=
  encodeU32 1 ++ [97] ++ [0] ++ encodeU32 1
  ++ encodeU32 0 ++ encodeU32 0
  ++ encodeU64 0
  ++ [1] ++ [1]

/-- Wire bytes of a version-17 attribute whose `data_order` byte is 2
(`Decreasing`). -/
def attrV17bytes : List Nat :=
  encodeU32 1 ++ [97] ++ [0] ++ encodeU32 1
  ++ encodeU32 0 ++ encodeU32 0
  ++ encodeU64 0
  ++ [1] ++ [1] ++ [2]

/-- Marker transform appending byte 65. -/
def tA : List Nat → List Nat := fun d => d ++ [65]

/-- Marker transform appending byte 66. -/
def tB : List Nat → List Nat := fun d => d ++ [66]

/-- Input chunk for the marker-chain witness. -/
def markerInputChunk : Chunk :=
  { original_size := 3, metadata := [], data := [7] }

/-- A synthetic filter whose output data is always the 2-byte `[1, 2]`. -/
def padFilter : FilterF := fun i o => pure (i, { o with data := [1, 2] })

/-- Single-node chain around `padFilter`. -/
def c10chain : FilterChain FilterF := .mk padFilter none

/-- A chunk declaring `original_size = 3`. -/
def c10input : Chunk := { original_size := 3, metadata := [], data := [9, 9, 9] }

/-- One-chunk payload holding `c10input`. -/
def c10data : ChunkedData := { num_chunks := 1, chunks := [c10input] }

/-! Helper lemmas. -/

theorem dbind_ok {α β : Type} {ma : DRes α} {f : α → DRes β} {b : β}
    (h : ma >>= f = .ok b) : ∃ a, ma = .ok a ∧ f a = .ok b := by
  cases ma with
  | error e => exact Except.noConfusion h
  | ok a => exact ⟨a, rfl, h⟩

theorem dpure_ok {α : Type} {a b : α} (h : (pure a : DRes α) = .ok b) :
    a = b :=
  Except.ok.inj h

theorem bind_then_throw {α : Type} (m : DRes PUnit) (e : DErr) :
    dresIsOk (m >>= fun _ => (throw e : DRes α)) = false := by
  cases m <;> rfl

theorem readU32_encode (v : Nat) (rest : List Nat) (hv : v < 4294967296) :
    readU32 (encodeU32 v ++ rest) = .ok (v, rest) := by
  simp only [encodeU32, List.cons_append, List.nil_append, readU32, readU8,
    bind, Except.bind, pure, Except.pure, Except.ok.injEq, Prod.mk.injEq,
    and_true]
  omega

theorem readBytes_exact (xs rest : List Nat) :
    readBytes xs.length (xs ++ rest) = .ok (xs, rest) := by
  simp [readBytes, pure, Except.pure]

theorem brIf_neg {α : Type} {c : Prop} [Decidable c] (hc : ¬c)
    (p : List Nat → DRes (α × List Nat)) (dflt : α) (bs : List Nat) :
    brIf c p dflt bs = .ok (dflt, bs) := by
  unfold brIf
  rw [if_neg hc]
  rfl

theorem vecResize_length (v : List Nat) (n : Nat) :
    (vecResize v n).length = n := by
  simp [vecResize]
  omega

theorem decompressParts_length (dd : DecompressFn)
    (hdd : ∀ s n r, dd s n = .ok r → r.length = n) (inputData : List Nat)
    (parts : List CompressionChunkInfo) :
    ∀ (buf : List Nat) (inOff outOff : Nat) (out : List Nat × Nat),
      decompressParts dd inputData parts buf inOff outOff = .ok out →
      out.1.length = buf.length := by
  induction parts with
  | nil =>
    intro buf inOff outOff out h
    unfold decompressParts at h
    rw [(dpure_ok h : (buf, inOff) = out).symm]
  | cons part rest ih =>
    intro buf inOff outOff out h
    unfold decompressParts at h
    split at h
    · split at h
      · split at h
        · exact Except.noConfusion h
        · rename_i hinb houtb res hres
          have hlen := ih _ _ _ _ h
          rw [hlen]
          have hr : res.length = part.uncompressed_size := hdd _ _ _ hres
          simp [List.length_take, List.length_drop]
          omega
      · exact Except.noConfusion h
    · exact Except.noConfusion h

theorem zipMapFstSnd {α β : Type} (l : List (α × β)) :
    (l.map Prod.fst).zip (l.map Prod.snd) = l := by
  induction l with
  | nil => rfl
  | cons a t ih => simp [ih]

theorem copyChunks_mismatch (pairs : List (Chunk × Chunk)) :
    ∀ (buf : List Nat) (off : Nat),
      buf.length = off + (pairs.map (fun p => p.1.original_size)).sum →
      (∃ p ∈ pairs, p.2.data.length ≠ p.1.original_size) →
      copyChunks pairs buf off
        = .error (.panicked "copy_from_slice length mismatch") := by
  induction pairs with
  | nil => intro buf off hlen hex; simp at hex
  | cons q rest ih =>
    intro buf off hlen hex
    obtain ⟨cin, cout⟩ := q
    unfold copyChunks
    rw [if_pos (by simp at hlen ⊢; omega)]
    by_cases hm : cout.data.length = cin.original_size
    · rw [if_pos hm]
      apply ih
      · simp at hlen ⊢
        omega
      · rcases hex with ⟨p, hp, hne⟩
        rcases List.mem_cons.mp hp with hq | hq
        · exfalso; rw [hq] at hne; exact hne hm
        · exact ⟨p, hq, hne⟩
    · rw [if_neg hm]
      rfl

theorem chainFromFilters_cons {φ : Type} (f : φ) (fs : List φ) :
    chainFromFilters (f :: fs)
      = some (FilterChain.mk f (chainFromFilters fs)) := by
  unfold chainFromFilters
  rw [List.reverse_cons, List.foldl_append]
  rfl

theorem marker_chain_aux (gs : List (List Nat → List Nat)) :
    ∀ (g : List Nat → List Nat) (input output : Chunk),
      ∃ p, (FilterChain.mk (markerFilter g)
          (chainFromFilters (gs.map markerFilter))).unfilter input output
        = .ok p ∧ p.2.data = composeTransforms (g :: gs) input.data := by
  induction gs with
  | nil =>
    intro g input output
    exact ⟨(input, { output with data := g input.data }), rfl, rfl⟩
  | cons r rs ih =>
    intro g input output
    rw [List.map_cons, chainFromFilters_cons]
    obtain ⟨p, hp, hdata⟩ := ih r input output
    refine ⟨(p.2, { p.1 with data := g p.2.data }), ?_, ?_⟩
    · unfold FilterChain.unfilter
      rw [hp]
      rfl
    · show g p.2.data = composeTransforms (g :: r :: rs) input.data
      rw [hdata]
      rfl

theorem enumMap_lo (version : Nat) (bs : List Nat) (hv : version < 20) :
    parseEnumerationNameMap version bs = .ok ([], bs) := by
  unfold parseEnumerationNameMap
  rw [if_pos hv]
  rfl

theorem dim_lo (v : Nat) (dt : DataType) (cf : FilterList) (bs : List Nat)
    (d : Dimension) (rest : List Nat)
    (h : parseDimension v dt cf bs = .ok (d, rest)) (hv : v < 5) :
    d.data_type = dt ∧ d.cell_val_num = cell_val_size dt
      ∧ d.coords_filters = cf := by
  unfold parseDimension at h
  obtain ⟨⟨name_size, bs1⟩, h1, h⟩ := dbind_ok h
  obtain ⟨⟨name, bs2⟩, h2, h⟩ := dbind_ok h
  obtain ⟨⟨data_type, bs3⟩, h3, h⟩ := dbind_ok h
  rw [brIf_neg (by omega)] at h3
  obtain ⟨u1, ha1, h⟩ := dbind_ok h
  obtain ⟨⟨cvn, bs4⟩, h4, h⟩ := dbind_ok h
  rw [brIf_neg (by omega)] at h4
  obtain ⟨⟨cfs, bs5⟩, h5, h⟩ := dbind_ok h
  rw [brIf_neg (by omega)] at h5
  obtain ⟨⟨ds, bs6⟩, h6, h⟩ := dbind_ok h
  obtain ⟨⟨rng, bs7⟩, h7, h⟩ := dbind_ok h
  obtain ⟨⟨nte, bs8⟩, h8, h⟩ := dbind_ok h
  obtain ⟨⟨te, bs9⟩, h9, h⟩ := dbind_ok h
  have hfin := dpure_ok h
  injection hfin with hrec hbs
  subst hrec
  injection h3 with h3a
  injection h3a with h3b h3c
  injection h4 with h4a
  injection h4a with h4b h4c
  injection h5 with h5a
  injection h5a with h5b h5c
  exact ⟨h3b.symm, h4b.symm, h5b.symm⟩

theorem attr_lo (v : Nat) (bs : List Nat) (a : Attribute) (rest : List Nat)
    (h : parseAttribute v bs = .ok (a, rest)) :
    (v < 7 → a.nullable = 0 ∧ a.fill_value_validity = 0)
    ∧ (v < 17 → a.data_order = .Unordered) := by
  unfold parseAttribute at h
  obtain ⟨⟨name_size, bs1⟩, h1, h⟩ := dbind_ok h
  obtain ⟨⟨name, bs2⟩, h2, h⟩ := dbind_ok h
  obtain ⟨⟨data_type, bs3⟩, h3, h⟩ := dbind_ok h
  obtain ⟨u1, ha1, h⟩ := dbind_ok h
  obtain ⟨⟨cvn, bs4⟩, h4, h⟩ := dbind_ok h
  obtain ⟨⟨fl, bs5⟩, h5, h⟩ := dbind_ok h
  obtain ⟨⟨fvs, bs6⟩, h6, h⟩ := dbind_ok h
  obtain ⟨⟨fv, bs7⟩, h7, h⟩ := dbind_ok h
  obtain ⟨⟨nul, bs8⟩, h8, h⟩ := dbind_ok h
  obtain ⟨⟨fvv, bs9⟩, h9, h⟩ := dbind_ok h
  obtain ⟨⟨dord, bs10⟩, h10, h⟩ := dbind_ok h
  obtain ⟨u2, ha2, h⟩ := dbind_ok h
  obtain ⟨⟨enl, bs11⟩, h11, h⟩ := dbind_ok h
  obtain ⟨⟨en, bs12⟩, h12, h⟩ := dbind_ok h
  have hfin := dpure_ok h
  injection hfin with hrec hbs
  subst hrec
  constructor
  · intro hv
    rw [brIf_neg (by omega)] at h8 h9
    injection h8 with h8a
    injection h9 with h9a
    injection h8a with h8b h8c
    injection h9a with h9b h9c
    exact ⟨h8b.symm, h9b.symm⟩
  · intro hv
    rw [brIf_neg (by omega)] at h10
    injection h10 with h10a
    injection h10a with h10b h10c
    exact h10b.symm

theorem schema_lo (bs : List Nat) (s : ArraySchema) (rest : List Nat)
    (h : parseArraySchema bs = .ok (s, rest)) :
    (s.version < 5 → s.allows_dups = 0)
    ∧ (s.version < 7 → s.cell_validity_filters = FilterList.default)
    ∧ (s.version < 18 → s.num_dimension_labels = 0
        ∧ s.dimension_labels = []) := by
  unfold parseArraySchema at h
  obtain ⟨⟨v, bs1⟩, h1, h⟩ := dbind_ok h
  obtain ⟨⟨ad, bs2⟩, h2, h⟩ := dbind_ok h
  obtain ⟨⟨at_, bs3⟩, h3, h⟩ := dbind_ok h
  obtain ⟨u1, ha1, h⟩ := dbind_ok h
  obtain ⟨⟨to_, bs4⟩, h4, h⟩ := dbind_ok h
  obtain ⟨u2, ha2, h⟩ := dbind_ok h
  obtain ⟨⟨co, bs5⟩, h5, h⟩ := dbind_ok h
  obtain ⟨u3, ha3, h⟩ := dbind_ok h
  obtain ⟨⟨cap, bs6⟩, h6, h⟩ := dbind_ok h
  obtain ⟨⟨cof, bs7⟩, h7, h⟩ := dbind_ok h
  obtain ⟨⟨cvf, bs8⟩, h8, h⟩ := dbind_ok h
  obtain ⟨⟨cvalf, bs9⟩, h9, h⟩ := dbind_ok h
  obtain ⟨⟨dom, bs10⟩, h10, h⟩ := dbind_ok h
  obtain ⟨⟨na, bs11⟩, h11, h⟩ := dbind_ok h
  obtain ⟨⟨attrs, bs12⟩, h12, h⟩ := dbind_ok h
  obtain ⟨⟨nl, bs13⟩, h13, h⟩ := dbind_ok h
  obtain ⟨⟨labels, bs14⟩, h14, h⟩ := dbind_ok h
  obtain ⟨⟨em, bs15⟩, h15, h⟩ := dbind_ok h
  have hfin := dpure_ok h
  injection hfin with hrec hbs
  subst hrec
  refine ⟨fun hv => ?_, fun hv => ?_, fun hv => ?_⟩
  · have hv5 : v < 5 := hv
    rw [brIf_neg (by omega)] at h2
    injection h2 with h2a
    injection h2a with h2b h2c
    exact h2b.symm
  · have hv7 : v < 7 := hv
    rw [brIf_neg (by omega)] at h9
    injection h9 with h9a
    injection h9a with h9b h9c
    exact h9b.symm
  · have hv18 : v < 18 := hv
    rw [brIf_neg (by omega)] at h13
    injection h13 with h13a
    injection h13a with h13b h13c
    subst h13b
    subst h13c
    constructor
    · rfl
    · unfold parseDimensionLabels at h14
      have h14a := dpure_ok h14
      injection h14a with h14b h14c
      exact h14b.symm

/-! Claim theorems. -/

/-- C1: the claim states that converting a decoded `FilterList` whose
kinds are all instantiable into a `FilterChain` via the fallible `TryFrom`
conversion succeeds with one instance per descriptor.  The code discards
the node it builds on every iteration and never reassigns `chain`, so the
conversion returns the "Empty filter list!" error for the one-`None`-filter
list — and indeed never succeeds for any input list. -/
theorem C1_tryfrom_filterlist_always_fails :
    tryFromFilterList oneNoneFilterList = .error (.failed "Empty filter list!")
    ∧ ∀ list : FilterList, dresIsOk (tryFromFilterList list) = false := by
  refine ⟨rfl, fun list => ?_⟩
  unfold tryFromFilterList
  exact bind_then_throw _ _

/-- C2: a chain built (in `from_list` order) from any nonempty list of
marker transforms undoes them in exactly the reverse of write-time order:
the final output data is the head transform applied last, i.e. the
composition `g_1 (g_2 (... (g_n input)))` in which the innermost link's
(last-applied) transform acts first. -/
theorem C2_unfilter_reverses_write_order
    (gs : List (List Nat → List Nat)) (hne : gs ≠ [])
    (input output : Chunk) :
    ∃ c, chainFromFilters (gs.map markerFilter) = some c ∧
      unfilterData c input output
        = .ok (composeTransforms gs input.data) := by
  obtain ⟨g, rest, rfl⟩ := List.exists_cons_of_ne_nil hne
  obtain ⟨p, hp, hdata⟩ := marker_chain_aux rest g input output
  refine ⟨FilterChain.mk (markerFilter g)
    (chainFromFilters (rest.map markerFilter)), ?_, ?_⟩
  · rw [List.map_cons, chainFromFilters_cons]
  · unfold unfilterData
    rw [hp]
    simp [Except.map, hdata]

/-- C2 witness: a two-stage chain `[A, B]` (B applied last at write time)
is unfiltered as "undo B, then undo A": the output is `tA (tB [7])`. -/
theorem C2_unfilter_reverses_write_order_witness :
    ∃ c, chainFromFilters ([tA, tB].map markerFilter) = some c ∧
      unfilterData c markerInputChunk Chunk.default = .ok [7, 66, 65] := by
  have h := C2_unfilter_reverses_write_order [tA, tB] (by simp)
    markerInputChunk Chunk.default
  exact h

/-- C3: compression unfiltering decodes the chunk's metadata as a
`CompressionChunks` framing and sizes the output metadata and data
buffers to the summed `uncompressed_size` of the metadata parts and data
parts respectively (first conjunct); and on the spec's scenario
(`metadata_parts = [(4,2)]`, `data_parts = [(6,3)]`, a 5-byte input) one
continuous input cursor feeds bytes 0..2 to the 4-byte metadata output
and bytes 2..5 to the 6-byte data output (second conjunct, for an
arbitrary decompression primitive). -/
theorem C3_decompress_sizing_and_single_cursor :
    (∀ (dd : DecompressFn) (input output : Chunk)
      (ci : CompressionChunks) (rest : List Nat) (res : Chunk),
      (∀ s n r, dd s n = .ok r → r.length = n) →
      parseCompressionChunks input.metadata = .ok (ci, rest) →
      decompress dd input output = .ok res →
      res.metadata.length
          = (ci.metadata_parts.map (fun c => c.uncompressed_size)).sum
        ∧ res.data.length
          = (ci.data_parts.map (fun c => c.uncompressed_size)).sum)
    ∧ (∀ (dd : DecompressFn) (n a b c d e : Nat) (m d6 : List Nat),
      dd [a, b] 4 = .ok m → m.length = 4 →
      dd [c, d, e] 6 = .ok d6 → d6.length = 6 →
      decompress dd
        { original_size := n, metadata := framingBytes,
          data := [a, b, c, d, e] }
        Chunk.default
      = .ok { original_size := 0, metadata := m, data := d6 }) := by
  constructor
  · intro dd input output ci rest res hdd hparse h
    unfold decompress at h
    obtain ⟨⟨ci2, rest2⟩, hp, h⟩ := dbind_ok h
    rw [hparse] at hp
    injection hp with hp
    injection hp with hp1 hp2
    subst hp1
    obtain ⟨⟨mbuf, inOff⟩, hm, h⟩ := dbind_ok h
    obtain ⟨⟨dbuf, inOff2⟩, hd, h⟩ := dbind_ok h
    have hres := dpure_ok h
    subst hres
    have hml := decompressParts_length dd hdd _ _ _ _ _ _ hm
    have hdl := decompressParts_length dd hdd _ _ _ _ _ _ hd
    constructor
    · show mbuf.length = _
      rw [hml, vecResize_length]
    · show dbuf.length = _
      rw [hdl, vecResize_length]
  · intro dd n a b c d e m d6 h1 hl1 h2 hl2
    have e1 : decompressParts dd [a, b, c, d, e]
        [{ uncompressed_size := 4, compressed_size := 2 }]
        (vecResize Chunk.default.metadata
          (List.map (fun c => c.uncompressed_size)
            [({ uncompressed_size := 4, compressed_size := 2 } :
              CompressionChunkInfo)]).sum) 0 0 = .ok (m ++ [], 2) := by
      unfold decompressParts
      rw [if_pos (show 0
          + ({ uncompressed_size := 4, compressed_size := 2 } :
            CompressionChunkInfo).compressed_size
          ≤ [a, b, c, d, e].length by simp)]
      rw [if_pos (by simp [vecResize_length])]
      rw [show (([a, b, c, d, e].drop 0).take 2) = [a, b] from rfl, h1]
      rfl
    have e2 : decompressParts dd [a, b, c, d, e]
        [{ uncompressed_size := 6, compressed_size := 3 }]
        (vecResize Chunk.default.data
          (List.map (fun c => c.uncompressed_size)
            [({ uncompressed_size := 6, compressed_size := 3 } :
              CompressionChunkInfo)]).sum) 2 0 = .ok (d6 ++ [], 5) := by
      unfold decompressParts
      rw [if_pos (show 2
          + ({ uncompressed_size := 6, compressed_size := 3 } :
            CompressionChunkInfo).compressed_size
          ≤ [a, b, c, d, e].length by simp)]
      rw [if_pos (by simp [vecResize_length])]
      rw [show (([a, b, c, d, e].drop 2).take 3) = [c, d, e] from rfl, h2]
      rfl
    unfold decompress
    rw [show parseCompressionChunks framingBytes = .ok (scenarioFraming, [])
      from rfl]
    simp only [bind, Except.bind, scenarioFraming]
    rw [e1]
    simp only []
    rw [e2]
    simp only [pure, Except.pure, List.append_nil]
    rfl

/-- C3 witness: the scenario evaluated with the concrete primitive
`ddConst`, discharging both conjuncts of the theorem. -/
theorem C3_decompress_sizing_and_single_cursor_witness :
    (∃ res, decompress ddConst scenarioInput Chunk.default = .ok res
      ∧ res.metadata.length = 4 ∧ res.data.length = 6)
    ∧ decompress ddConst scenarioInput Chunk.default = .ok scenarioOutput := by
  have hdd : ∀ s n r, ddConst s n = .ok r → r.length = n := by
    intro s n r h
    injection h with h
    rw [← h]
    simp
  have happ : decompress ddConst scenarioInput Chunk.default
      = .ok scenarioOutput :=
    C3_decompress_sizing_and_single_cursor.2 ddConst 5 10 11 12 13 14
      (List.replicate 4 7) (List.replicate 6 7) rfl (by simp) rfl (by simp)
  have hsz := C3_decompress_sizing_and_single_cursor.1 ddConst scenarioInput
    Chunk.default scenarioFraming [] scenarioOutput hdd rfl happ
  exact ⟨⟨scenarioOutput, happ, hsz.1, hsz.2⟩, happ⟩

/-- C4: the claim states that `unfilter_chunks` always returns a
contiguous buffer sized and placed by the chunks' declared
`original_size`.  On the spec's own scenario — a one-chunk payload
(`original_size = 13`, data `Hello, world!`) run through a single
`None`-filter chain — the code panics instead: `EmptyFilter::unfilter`
swaps the chunks, so the post-loop input chunk carries `original_size = 0`
and the `copy_from_slice` of the 13-byte output into a 0-byte slice is a
length-mismatch panic. -/
theorem C4_unfilter_chunks_hello_world_panics :
    ∃ c, FilterChain.from_list oneNoneFilterList = .ok c ∧
      (c.mapFilters (FilterInstance.run trivialInflate)).unfilter_chunks
        helloChunkedData
      = .error (.panicked "copy_from_slice length mismatch") :=
  ⟨FilterChain.mk .empty none, rfl, rfl⟩

/-- C5: the `ArraySchema` version assertion accepts every version up to
the supported maximum 21 (first conjunct: the version stage succeeds and
decoding proceeds past it), and a blob whose version field exceeds 21 is
rejected by `parseArraySchema` with the unsupported-version error
(second conjunct); in particular version 22 is rejected. -/
theorem C5_version_bound :
    (∀ v rest, v ≤ CURRENT_FORMAT_VERSION →
      parseSchemaVersion (encodeU32 v ++ rest) = .ok (v, rest))
    ∧ (∀ bs v rest, readU32 bs = .ok (v, rest) → CURRENT_FORMAT_VERSION < v →
      parseArraySchema bs
        = .error (.failed "Invalid version is newer than library version")) := by
  constructor
  · intro v rest hv
    unfold parseSchemaVersion
    rw [readU32_encode v rest (by unfold CURRENT_FORMAT_VERSION at hv; omega)]
    simp only [bind, Except.bind, if_pos hv]
    rfl
  · intro bs v rest hread hv
    have hsv : parseSchemaVersion bs
        = .error (.failed "Invalid version is newer than library version") := by
      unfold parseSchemaVersion
      rw [hread]
      simp only [bind, Except.bind,
        if_neg (by omega : ¬v ≤ CURRENT_FORMAT_VERSION)]
      rfl
    unfold parseArraySchema
    rw [hsv]
    rfl

/-- C5 witness: version 4 passes the version stage; the blob
`[22, 0, 0, 0]` is rejected with the unsupported-version error. -/
theorem C5_version_bound_witness :
    parseSchemaVersion (encodeU32 4 ++ [9]) = .ok (4, [9])
    ∧ parseArraySchema [22, 0, 0, 0]
      = .error (.failed "Invalid version is newer than library version") :=
  ⟨C5_version_bound.1 4 [9] (by decide),
    C5_version_bound.2 [22, 0, 0, 0] 22 [] rfl (by decide)⟩

/-- C6: the version-gating table.  Universally: `allows_dups` defaults to
0 below version 5; a dimension's own data type / cell_val_num / filters
are inherited from the domain below version 5; `cell_validity_filters`
defaults to the empty list below version 7; attribute `nullable` and
`fill_value_validity` default to 0 below version 7; attribute
`data_order` defaults to `Unordered` below version 17; the
dimension-label count defaults to 0 (and the label list to empty) below
version 18; the enumeration map is empty (and consumes no input) below
version 20.  Concretely: at versions 5, 7, 17, 18 and 20 the
corresponding fields are read from the stream. -/
theorem C6_field_version_gating :
    (∀ bs s rest, parseArraySchema bs = .ok (s, rest) → s.version < 5 →
      s.allows_dups = 0)
    ∧ (∀ v dt cf bs d rest, parseDimension v dt cf bs = .ok (d, rest) →
      v < 5 → d.data_type = dt ∧ d.cell_val_num = cell_val_size dt
        ∧ d.coords_filters = cf)
    ∧ (∀ bs s rest, parseArraySchema bs = .ok (s, rest) → s.version < 7 →
      s.cell_validity_filters = FilterList.default)
    ∧ (∀ v bs a rest, parseAttribute v bs = .ok (a, rest) → v < 7 →
      a.nullable = 0 ∧ a.fill_value_validity = 0)
    ∧ (∀ v bs a rest, parseAttribute v bs = .ok (a, rest) → v < 17 →
      a.data_order = .Unordered)
    ∧ (∀ bs s rest, parseArraySchema bs = .ok (s, rest) → s.version < 18 →
      s.num_dimension_labels = 0 ∧ s.dimension_labels = [])
    ∧ (∀ v bs, v < 20 → parseEnumerationNameMap v bs = .ok ([], bs))
    ∧ (parseArraySchema v5blob).map (fun p => p.1.allows_dups) = .ok 1
    ∧ (parseArraySchema v4blob).map (fun p => p.1.allows_dups) = .ok 0
    ∧ (parseDimension 5 .Uint64 FilterList.default dimV5bytes).map
        (fun p => (p.1.data_type, p.1.cell_val_num,
          p.1.coords_filters.max_chunk_size))
      = .ok (.Int8, 1, 9)
    ∧ (parseArraySchema v7blob).map
        (fun p => p.1.cell_validity_filters.max_chunk_size) = .ok 77
    ∧ (parseAttribute 7 attrV7bytes).map
        (fun p => (p.1.nullable, p.1.fill_value_validity)) = .ok (1, 1)
    ∧ (parseAttribute 17 attrV17bytes).map (fun p => p.1.data_order)
      = .ok .Decreasing
    ∧ (parseArraySchema v18blob).map (fun p => p.1.dimension_labels.length)
      = .ok 1
    ∧ (parseArraySchema v20blob).map (fun p => p.1.enumeration_map)
      = .ok [([110], [112])] := by
  refine ⟨fun bs s rest h hv => (schema_lo bs s rest h).1 hv,
    fun v dt cf bs d rest h hv => dim_lo v dt cf bs d rest h hv,
    fun bs s rest h hv => (schema_lo bs s rest h).2.1 hv,
    fun v bs a rest h hv => (attr_lo v bs a rest h).1 hv,
    fun v bs a rest h hv => (attr_lo v bs a rest h).2 hv,
    fun bs s rest h hv => (schema_lo bs s rest h).2.2 hv,
    fun v bs hv => enumMap_lo v bs hv,
    rfl, rfl, rfl, rfl, rfl, rfl, rfl, rfl⟩

/-- C6 witness: the universal gating conjuncts instantiated at concrete
below-threshold inputs (a version-4 schema blob, a version-4 dimension, a
version-6 attribute, a version-19 enumeration map). -/
theorem C6_field_version_gating_witness :
    (parseArraySchema v4blob = .ok (v4schema, []) ∧ v4schema.version < 5
      ∧ v4schema.allows_dups = 0
      ∧ v4schema.cell_validity_filters = FilterList.default
      ∧ v4schema.dimension_labels = [])
    ∧ (parseDimension 4 .Uint64 coordsFL42 dimV4bytes
        = .ok (dimV4parsed, []) ∧ dimV4parsed.data_type = .Uint64
      ∧ dimV4parsed.cell_val_num = cell_val_size .Uint64
      ∧ dimV4parsed.coords_filters = coordsFL42)
    ∧ (parseAttribute 6 attrV6bytes = .ok (attrV6parsed, [])
      ∧ attrV6parsed.nullable = 0 ∧ attrV6parsed.fill_value_validity = 0
      ∧ attrV6parsed.data_order = .Unordered)
    ∧ parseEnumerationNameMap 19 [9, 9] = .ok ([], [9, 9]) :=
  ⟨⟨rfl, by decide, C6_field_version_gating.1 v4blob v4schema [] rfl (by decide),
      (C6_field_version_gating.2.2.1 v4blob v4schema [] rfl (by decide)),
      (C6_field_version_gating.2.2.2.2.2.1 v4blob v4schema [] rfl
        (by decide)).2⟩,
    ⟨rfl, (C6_field_version_gating.2.1 4 .Uint64 coordsFL42 dimV4bytes
        dimV4parsed [] rfl (by decide)).1,
      (C6_field_version_gating.2.1 4 .Uint64 coordsFL42 dimV4bytes
        dimV4parsed [] rfl (by decide)).2.1,
      (C6_field_version_gating.2.1 4 .Uint64 coordsFL42 dimV4bytes
        dimV4parsed [] rfl (by decide)).2.2⟩,
    ⟨rfl, (C6_field_version_gating.2.2.2.1 6 attrV6bytes attrV6parsed []
        rfl (by decide)).1,
      (C6_field_version_gating.2.2.2.1 6 attrV6bytes attrV6parsed [] rfl
        (by decide)).2,
      C6_field_version_gating.2.2.2.2.1 6 attrV6bytes attrV6parsed [] rfl
        (by decide)⟩,
    C6_field_version_gating.2.2.2.2.2.2.1 19 [9, 9] (by decide)⟩

/-- C7: byte-to-enum conversion is total and yields the `Invalid`
sentinel for every byte outside the known range of each of the five wire
enumerations; and structural decoding of a schema whose array-type byte
is out of range fails with the invalid-enum decode error rather than
producing a schema holding `Invalid`. -/
theorem C7_invalid_enum_sentinel :
    (∀ b, 41 < b → DataType.fromByte b = .Invalid)
    ∧ (∀ b, 19 < b → FilterType.fromByte b = .Invalid)
    ∧ (∀ b, 1 < b → ArrayType.fromByte b = .Invalid)
    ∧ (∀ b, 4 < b → Layout.fromByte b = .Invalid)
    ∧ (∀ b, 2 < b → DataOrder.fromByte b = .Invalid)
    ∧ parseArraySchema invalidArrayTypeBlob
      = .error (.failed "array_type is Invalid") := by
  refine ⟨fun b hb => ?_, fun b hb => ?_, fun b hb => ?_, fun b hb => ?_,
    fun b hb => ?_, rfl⟩
  · obtain ⟨k, rfl⟩ : ∃ k, b = k + 42 := ⟨b - 42, by omega⟩
    rfl
  · obtain ⟨k, rfl⟩ : ∃ k, b = k + 20 := ⟨b - 20, by omega⟩
    rfl
  · obtain ⟨k, rfl⟩ : ∃ k, b = k + 2 := ⟨b - 2, by omega⟩
    rfl
  · obtain ⟨k, rfl⟩ : ∃ k, b = k + 5 := ⟨b - 5, by omega⟩
    rfl
  · obtain ⟨k, rfl⟩ : ∃ k, b = k + 3 := ⟨b - 3, by omega⟩
    rfl

/-- C7 witness: the sentinel conjuncts instantiated at concrete
out-of-range bytes. -/
theorem C7_invalid_enum_sentinel_witness :
    DataType.fromByte 200 = .Invalid ∧ FilterType.fromByte 99 = .Invalid
    ∧ ArrayType.fromByte 7 = .Invalid ∧ Layout.fromByte 9 = .Invalid
    ∧ DataOrder.fromByte 5 = .Invalid :=
  ⟨C7_invalid_enum_sentinel.1 200 (by decide),
    C7_invalid_enum_sentinel.2.1 99 (by decide),
    C7_invalid_enum_sentinel.2.2.1 7 (by decide),
    C7_invalid_enum_sentinel.2.2.2.1 9 (by decide),
    C7_invalid_enum_sentinel.2.2.2.2.1 5 (by decide)⟩

/-- C8 counterexample: the claim states that raw decoding of a filter
descriptor succeeds structurally for every kind byte, including
unrecognized ones.  The kind byte 20 maps to `FilterType::Invalid` and the
field assertion rejects it at raw decode time. -/
theorem C8_raw_decode_counterexample :
    parseFilter 21 [20] = .error (.failed "filter_type is Invalid") := rfl

/-- C8 (amended): raw decoding succeeds structurally for every recognized
kind byte (0..=19) given sufficient configuration bytes; a kind byte
outside the recognized range is rejected at raw decode time by the
`Invalid`-filter-type assertion; and a recognized but unsupported kind
(such as Zstd) decodes raw but is rejected only when instantiated into an
executable filter. -/
theorem C8_filter_decode_amended :
    (∀ b, b < 20 → dresIsOk (parseFilter 21 (sampleFilterBytes b)) = true)
    ∧ (∀ version b rest, 19 < b →
      parseFilter version (b :: rest)
        = .error (.failed "filter_type is Invalid"))
    ∧ parseFilter 21 zstdFilterBytes = .ok (zstdFilter, [])
    ∧ tryFromFilter zstdFilter = .error (.failed "Unsupported filter type") := by
  refine ⟨by decide, fun version b rest hb => ?_, rfl, rfl⟩
  obtain ⟨k, rfl⟩ : ∃ k, b = k + 20 := ⟨b - 20, by omega⟩
  rfl

/-- C8 witness: kind byte 1 (GZip) decodes raw; kind byte 200 is rejected
at raw decode. -/
theorem C8_filter_decode_amended_witness :
    dresIsOk (parseFilter 21 (sampleFilterBytes 1)) = true
    ∧ parseFilter 21 [200] = .error (.failed "filter_type is Invalid") :=
  ⟨C8_filter_decode_amended.1 1 (by decide),
    C8_filter_decode_amended.2.1 21 200 [] (by decide)⟩

/-- C9 counterexample: the claim states that non-UTF-8 bytes in any
text-typed name field yield an invalid-text decode error rather than a
crash.  A schema blob whose attribute name is the byte 0xFF makes the
decoder panic (the `String::from_utf8(v).unwrap()` on the attribute name),
not return an error. -/
theorem C9_attribute_name_counterexample :
    parseArraySchema v21blobBadAttrName
      = .error (.panicked "String::from_utf8 failed") := rfl

/-- C9 (amended): non-UTF-8 bytes in an enumeration-map name are reported
as a recoverable decode error, but non-UTF-8 bytes in an attribute name
are a panic (the decoder unwraps the conversion), for every such input. -/
theorem C9_invalid_text_amended :
    (∀ version (name rest : List Nat), name.length < 4294967296 →
      utf8Valid name = false →
      parseAttribute version (encodeU32 name.length ++ (name ++ rest))
        = .error (.panicked "String::from_utf8 failed"))
    ∧ (∀ n (m : EnumMap) (name rest : List Nat), name.length < 4294967296 →
      utf8Valid name = false →
      parseEnumEntries (n + 1) m (encodeU32 name.length ++ (name ++ rest))
        = .error (.failed "invalid utf-8 sequence"))
    ∧ parseArraySchema v20blobBadName
      = .error (.failed "invalid utf-8 sequence") := by
  refine ⟨fun version name rest hlen hbad => ?_,
    fun n m name rest hlen hbad => ?_, rfl⟩
  · unfold parseAttribute
    rw [readU32_encode _ _ hlen]
    simp only [bind, Except.bind, readUtf8Unwrap, readBytes_exact, hbad,
      Bool.false_eq_true, if_false]
  · unfold parseEnumEntries
    rw [readU32_encode _ _ hlen]
    simp only [bind, Except.bind, readUtf8Custom, readBytes_exact, hbad,
      Bool.false_eq_true, if_false]

/-- C9 witness: the amended conjuncts instantiated at the 1-byte invalid
name `[255]`. -/
theorem C9_invalid_text_amended_witness :
    parseAttribute 21 [1, 0, 0, 0, 255]
      = .error (.panicked "String::from_utf8 failed")
    ∧ parseEnumEntries 1 [] [1, 0, 0, 0, 255]
      = .error (.failed "invalid utf-8 sequence") :=
  ⟨C9_invalid_text_amended.1 21 [255] [] (by decide) (by decide),
    C9_invalid_text_amended.2.1 0 [] [255] [] (by decide) (by decide)⟩

/-- C10: when the per-chunk unfiltering loop succeeds but some chunk's
output data length differs from that chunk's declared `original_size`,
the concatenation step of `unfilter_chunks` panics with the
`copy_from_slice` length mismatch instead of returning an error result. -/
theorem C10_copy_panics_on_length_mismatch (chain : FilterChain FilterF)
    (cd : ChunkedData) (pairs : List (Chunk × Chunk))
    (hmap : (cd.chunks.zip (ChunkedData.new cd.num_chunks).chunks).mapM
      (fun p => chain.unfilter p.1 p.2) = .ok pairs)
    (hex : ∃ p ∈ pairs, p.2.data.length ≠ p.1.original_size) :
    chain.unfilter_chunks cd
      = .error (.panicked "copy_from_slice length mismatch") := by
  unfold FilterChain.unfilter_chunks
  simp only [hmap, bind, Except.bind]
  rw [zipMapFstSnd]
  apply copyChunks_mismatch pairs _ 0 _ hex
  simp only [List.length_replicate, Nat.zero_add, List.map_map]
  rfl

/-- C10 witness: a one-filter chain producing 2 bytes for a chunk that
declares `original_size = 3` makes `unfilter_chunks` panic. -/
theorem C10_copy_panics_on_length_mismatch_witness :
    c10chain.unfilter_chunks c10data
      = .error (.panicked "copy_from_slice length mismatch") :=
  C10_copy_panics_on_length_mismatch c10chain c10data
    [(c10input, { original_size := 0, metadata := [], data := [1, 2] })] rfl
    ⟨(c10input, { original_size := 0, metadata := [], data := [1, 2] }),
      by simp, by decide⟩

end Tdbtk
